import Mathlib

/-!
Shallow embedding of the ssandbox-rs container supervisor
(`src/container/mod.rs`) and filesystem mount steps
(`src/filesystem/mod.rs`).

Effectful syscalls are modelled by an environment (oracle) supplying
each syscall's outcome; operations return their result together with
the updated `Container` state and a trace of the observable syscall
events they issued, in order.  Machine integers are `Nat` (no overflow
arises in the modelled code paths); fallible calls return `Except`.
-/

namespace SSandbox

/-- Linux mount(2) flag `MS_RDONLY`. -/
def MS_RDONLY : Nat := 1
/-- Linux mount(2) flag `MS_REMOUNT`. -/
def MS_REMOUNT : Nat := 32
/-- Linux mount(2) flag `MS_BIND`. -/
def MS_BIND : Nat := 4096
/-- Linux mount(2) flag `MS_REC`. -/
def MS_REC : Nat := 16384

/-- Linux clone(2) flag `CLONE_NEWNS`. -/
def CLONE_NEWNS : Nat := 0x00020000
/-- Linux clone(2) flag `CLONE_NEWCGROUP`. -/
def CLONE_NEWCGROUP : Nat := 0x02000000
/-- Linux clone(2) flag `CLONE_NEWUTS`. -/
def CLONE_NEWUTS : Nat := 0x04000000
/-- Linux clone(2) flag `CLONE_NEWIPC`. -/
def CLONE_NEWIPC : Nat := 0x08000000
/-- Linux clone(2) flag `CLONE_NEWUSER`. -/
def CLONE_NEWUSER : Nat := 0x10000000
/-- Linux clone(2) flag `CLONE_NEWPID`. -/
def CLONE_NEWPID : Nat := 0x20000000
/-- Linux clone(2) flag `CLONE_NEWNET`. -/
def CLONE_NEWNET : Nat := 0x40000000

/-- Signal number of `SIGKILL`. -/
def SIGKILL : Nat := 9
/-- Signal number of `SIGCHLD`. -/
def SIGCHLD : Nat := 17
/-- errno `ENOENT` (`std::io::ErrorKind::NotFound`). -/
def ENOENT : Nat := 2

/-- One call to mount(2): `mount::mount(source, target, fstype, flags, data)`
as issued by the mount steps in `src/filesystem/mod.rs`. -/
structure MountCall where
  source : Option String
  target : String
  fstype : Option String
  flags : Nat
  data : Option String
  deriving DecidableEq, Repr

/-- The three mount-step implementations of `MountNamespacedFs` present in
`src/filesystem/mod.rs`: `MountTmpFs`, `MountProcFs`, `MountBindFs`. -/
inductive MountStep where
  | tmpFs : MountStep
  | procFs : MountStep
  | bindFs (source : String) : MountStep
  deriving DecidableEq, Repr

/-- `MountNamespacedFs::loading(&self, base_path)`: the mount(2) calls a step
issues pre-pivot.  The trait default is a no-op; only `MountBindFs`
overrides it, with a single `MS_REC | MS_BIND` mount of its source onto
`base_path` (`src/filesystem/mod.rs` lines 58-69). -/
def MountStep.loading : MountStep → String → List MountCall
  | .bindFs source, base_path =>
      [{ source := some source, target := base_path, fstype := none,
         flags := MS_REC ||| MS_BIND, data := none }]
  | _, _ => []

/-- `MountNamespacedFs::loaded(&self)`: the mount(2) calls a step issues
post-pivot.  `MountTmpFs` mounts tmpfs on `/tmp`, `MountProcFs` mounts proc
on `/proc`; `MountBindFs` keeps the no-op default. -/
def MountStep.loaded : MountStep → List MountCall
  | .tmpFs =>
      [{ source := some "tmpfs", target := "/tmp", fstype := some "tmpfs",
         flags := 0, data := none }]
  | .procFs =>
      [{ source := some "proc", target := "/proc", fstype := some "proc",
         flags := 0, data := none }]
  | .bindFs _ => []

/-- The behaviour the spec ascribes to the read-only bind step's `loading`:
a recursive bind of the source onto the base path, followed by a
read-only remount of that bind (`MS_REMOUNT | MS_BIND | MS_RDONLY`).
Stated from the spec's words, for comparison with `MountStep.loading`. -/
def bindLoadingPerSpec (source base_path : String) : List MountCall :=
  [{ source := some source, target := base_path, fstype := none,
     flags := MS_REC ||| MS_BIND, data := none },
   { source := none, target := base_path, fstype := none,
     flags := MS_REMOUNT ||| MS_BIND ||| MS_RDONLY, data := none }]

/-- `CGroupLimitPolicy` (from `src/resource`, whose body is out of scope):
only its identity matters to the supervisor model. -/
structure CGroupLimitPolicy where
  deriving DecidableEq, Repr

/-- The two security-policy implementations the default config installs:
`security::CapabilityPolicy` and `security::SeccompPolicy`. -/
inductive SecurityPolicy where
  | capabilityPolicy : SecurityPolicy
  | seccompPolicy : SecurityPolicy
  deriving DecidableEq, Repr

/-- `container::Config` (`src/container/mod.rs` lines 20-34).
`time_limit` is a `std::time::Duration`, modelled in nanoseconds. -/
structure Config where
  uid : Nat
  working_path : String
  hostname : String
  target_executable : String
  fs : List MountStep
  security_policies : List SecurityPolicy
  cgroup_limits : CGroupLimitPolicy
  inner_uid : Nat
  inner_gid : Nat
  time_limit_nanos : Nat
  stdin : Option String
  stdout : Option String
  stderr : Option String
  deriving DecidableEq, Repr

/-- `impl Default for Config` (`src/container/mod.rs` lines 36-57).
`rand::random()` is modelled by the parameter `randomUid`. -/
def Config.default (randomUid : Nat) : Config :=
  { uid := randomUid
    working_path := "/tmp/ssandbox-rs.workspace/"
    hostname := "container"
    target_executable := "/bin/sh"
    fs := []
    security_policies := [SecurityPolicy.capabilityPolicy, SecurityPolicy.seccompPolicy]
    cgroup_limits := {}
    inner_gid := 0
    inner_uid := 0
    time_limit_nanos := 1000000000
    stdin := none
    stdout := none
    stderr := none }

/-- `container::Container` (`src/container/mod.rs` lines 60-64). -/
structure Container where
  config : Config
  container_pid : Option Nat
  already_ended : Bool
  deriving DecidableEq, Repr

/-- `Container::from(Config)` (`src/container/mod.rs` lines 66-74). -/
def Container.fromConfig (source : Config) : Container :=
  { config := source, container_pid := none, already_ended := false }

/-- `Container::has_started` (`src/container/mod.rs` lines 95-97). -/
def Container.has_started (c : Container) : Bool :=
  c.container_pid != none

/-- `Container::has_ened` (`src/container/mod.rs` lines 99-101; the
source spells it this way). -/
def Container.has_ened (c : Container) : Bool :=
  c.already_ended

/-- The error taxonomy of `src/container/error` as observed through
`Container`'s results.  `sys` carries an errno propagated by `?` from a
`nix` call; `io` an errno from `std::fs`. -/
inductive Err where
  | alreadyStarted : Err
  | forkFailed (e : Nat) : Err
  | sys (e : Nat) : Err
  | idMapFailed (e : Nat) : Err
  | cgroupFailed (e : Nat) : Err
  | entryError (code : UInt8) (payload : List UInt8) : Err
  | io (e : Nat) : Err
  deriving DecidableEq, Repr

/-- Observable syscall events a supervisor operation issues, in order. -/
inductive Event where
  | pipeCreated (readFd writeFd : Nat) : Event
  | cloneCalled (stackSize flags sig : Nat) : Event
  | closeCalled (fd : Nat) : Event
  | idmapCalled (pid : Nat) : Event
  | cgroupApplyCalled (uid pid : Nat) : Event
  | killCalled (pid sig : Nat) : Event
  | readReport (bytesRead : Nat) : Event
  | timerSpawned (pid limitNanos : Nat) : Event
  | waitpidCalled (pid : Nat) : Event
  | cgroupDeleteCalled (uid : Nat) : Event
  | removeDirAllCalled (path : String) : Event
  deriving DecidableEq, Repr

/-- Oracle for the syscalls `Container::start` performs, in program order.
`reportData` is the byte stream the child wrote to the report pipe before
closing it (empty list = immediate EOF); `reportReadErr` injects a failure
of the first read(2) on the report pipe. -/
structure StartEnv where
  pipeReady : Except Nat (Nat × Nat)
  pipeReport : Except Nat (Nat × Nat)
  cloneRes : Except Nat Nat
  closeReadyReadRes : Except Nat Unit
  closeReportWriteRes : Except Nat Unit
  idmapRes : Except Nat Unit
  cgroupApplyRes : Except Nat Unit
  killRes : Except Nat Unit
  closeReadyWriteRes : Except Nat Unit
  reportReadErr : Option Nat
  reportData : List UInt8
  deriving Repr

/-- `unistd::read` into a zero-initialised buffer of `n` bytes: returns the
buffer after the read, the byte count the call returned, and the bytes left
in the stream.  At EOF the call returns 0 and the buffer keeps its zeros. -/
def readIntoBuf (n : Nat) (data : List UInt8) : List UInt8 × Nat × List UInt8 :=
  let got := data.take n
  (got ++ List.replicate (n - got.length) 0, got.length, data.drop n)

/-- `usize::from_ne_bytes` on x86-64: little-endian, 8 bytes. -/
def usizeFromNeBytes (bs : List UInt8) : Nat :=
  bs.foldr (fun b acc => b.toNat + 256 * acc) 0

/-- `const STACK_SIZE: usize = 2 * 1024 * 1024` (`src/container/mod.rs`
line 104). -/
def STACK_SIZE : Nat := 2 * 1024 * 1024

/-- The tail of `Container::start` after a successful clone
(`src/container/mod.rs` lines 136-189): `c` already holds
`container_pid = Some(pid)`.  Close the parent's unused pipe ends, run
idmap then cgroup apply (killing the child if either fails), release the
ready gate by closing its write end, read one status byte from the report
pipe (decoding a length-prefixed error payload when it is non-zero), spawn
the deadline timer, return.  `tr1` is the trace accumulated so far. -/
def Container.startAfterClone (c : Container) (env : StartEnv)
    (pid ready_pipe_read ready_pipe_write report_pipe_read report_pipe_write : Nat)
    (tr1 : List Event) : Except Err Unit × Container × List Event :=
  let _ := report_pipe_read
  let tr2 := tr1 ++ [Event.closeCalled ready_pipe_read]
  match env.closeReadyReadRes with
  | Except.error e => (Except.error (Err.sys e), c, tr2)
  | Except.ok _ =>
    let tr3 := tr2 ++ [Event.closeCalled report_pipe_write]
    match env.closeReportWriteRes with
    | Except.error e => (Except.error (Err.sys e), c, tr3)
    | Except.ok _ =>
      let tr4 := tr3 ++ [Event.idmapCalled pid]
      match env.idmapRes with
      | Except.error e =>
        let tr := tr4 ++ [Event.killCalled pid SIGKILL]
        match env.killRes with
        | Except.error ke => (Except.error (Err.sys ke), c, tr)
        | Except.ok _ => (Except.error (Err.idMapFailed e), c, tr)
      | Except.ok _ =>
        let tr5 := tr4 ++ [Event.cgroupApplyCalled c.config.uid pid]
        match env.cgroupApplyRes with
        | Except.error e =>
          let tr := tr5 ++ [Event.killCalled pid SIGKILL]
          match env.killRes with
          | Except.error ke => (Except.error (Err.sys ke), c, tr)
          | Except.ok _ => (Except.error (Err.cgroupFailed e), c, tr)
        | Except.ok _ =>
          let tr6 := tr5 ++ [Event.closeCalled ready_pipe_write]
          match env.closeReadyWriteRes with
          | Except.error e => (Except.error (Err.sys e), c, tr6)
          | Except.ok _ =>
            match env.reportReadErr with
            | some e => (Except.error (Err.sys e), c, tr6)
            | none =>
              let (buf, n, rest) := readIntoBuf 1 env.reportData
              let tr7 := tr6 ++ [Event.readReport n]
              let status := buf.headD 0
              if status ≠ 0 then
                let (lenBuf, n2, rest2) := readIntoBuf 8 rest
                let len := usizeFromNeBytes lenBuf
                let (payload, n3, _) := readIntoBuf len rest2
                (Except.error (Err.entryError status payload), c,
                 tr7 ++ [Event.readReport n2, Event.readReport n3])
              else
                (Except.ok (), c,
                 tr7 ++ [Event.timerSpawned pid c.config.time_limit_nanos])

/-- `Container::start` (`src/container/mod.rs` lines 103-190), line by line:
guard, two pipes, clone with the five namespace flags and `SIGCHLD`, record
the pid, then continue in `startAfterClone`. -/
def Container.start (c : Container) (env : StartEnv) :
    Except Err Unit × Container × List Event :=
  if c.has_started || c.has_ened then
    (Except.error Err.alreadyStarted, c, [])
  else
    match env.pipeReady with
    | Except.error e => (Except.error (Err.sys e), c, [])
    | Except.ok (ready_pipe_read, ready_pipe_write) =>
      match env.pipeReport with
      | Except.error e =>
          (Except.error (Err.sys e), c,
           [Event.pipeCreated ready_pipe_read ready_pipe_write])
      | Except.ok (report_pipe_read, report_pipe_write) =>
        let tr0 := [Event.pipeCreated ready_pipe_read ready_pipe_write,
                    Event.pipeCreated report_pipe_read report_pipe_write]
        let cloneFlags := CLONE_NEWUTS ||| CLONE_NEWIPC ||| CLONE_NEWPID
                            ||| CLONE_NEWNS ||| CLONE_NEWUSER
        let tr1 := tr0 ++ [Event.cloneCalled STACK_SIZE cloneFlags SIGCHLD]
        match env.cloneRes with
        | Except.error e => (Except.error (Err.forkFailed e), c, tr1)
        | Except.ok pid =>
          Container.startAfterClone { c with container_pid := some pid } env
            pid ready_pipe_read ready_pipe_write report_pipe_read
            report_pipe_write tr1

/-- Oracle for `waitpid(pid, None)`. -/
structure WaitEnv where
  waitpidRes : Except Nat Unit
  deriving Repr

/-- `Container::wait` (`src/container/mod.rs` lines 192-200): if not ended,
blocking-wait on the child pid when there is one, then set `already_ended`;
a `waitpid` failure propagates before the flag is set. -/
def Container.wait (c : Container) (env : WaitEnv) :
    Except Err Unit × Container × List Event :=
  if !c.has_ened then
    match c.container_pid with
    | some pid =>
      match env.waitpidRes with
      | Except.error e =>
          (Except.error (Err.sys e), c, [Event.waitpidCalled pid])
      | Except.ok _ =>
          (Except.ok (), { c with already_ended := true },
           [Event.waitpidCalled pid])
    | none => (Except.ok (), { c with already_ended := true }, [])
  else
    (Except.ok (), c, [])

/-- Oracle for the syscalls `Container::terminate` performs. -/
structure TermEnv where
  killRes : Except Nat Unit
  waitpidRes : Except Nat Unit
  deriving Repr

/-- `Container::terminate` (`src/container/mod.rs` lines 202-210): if not
ended, `SIGKILL` the child when there is one, then `wait()`. -/
def Container.terminate (c : Container) (env : TermEnv) :
    Except Err Unit × Container × List Event :=
  if !c.has_ened then
    match c.container_pid with
    | some pid =>
      match env.killRes with
      | Except.error e =>
          (Except.error (Err.sys e), c, [Event.killCalled pid SIGKILL])
      | Except.ok _ =>
        let (r, c2, tr) := c.wait { waitpidRes := env.waitpidRes }
        (r, c2, Event.killCalled pid SIGKILL :: tr)
    | none =>
      let (r, c2, tr) := c.wait { waitpidRes := env.waitpidRes }
      (r, c2, tr)
  else
    (Except.ok (), c, [])

/-- Host-side state that `Container::delete` mutates: whether the cgroup
named by the container uid and the workspace directory
`<working_path>/<uid>` currently exist. -/
structure World where
  cgroupExists : Bool
  workspaceExists : Bool
  deriving DecidableEq, Repr

/-- Modelled from the spec: `CGroupLimitPolicy::delete(uid)` lives in
`src/resource`, absent from the sources.  The spec fixes its contract:
"`delete(uid)`: remove the cgroup. Must be idempotent" and "`delete`
swallows not-found" — removing an absent cgroup succeeds. -/
def cgroupDelete (w : World) : Except Nat Unit × World :=
  (Except.ok (), { w with cgroupExists := false })

/-- `std::fs::remove_dir_all` on the workspace directory: removes it when
present; fails with `NotFound` (`ENOENT`) when the path does not exist, as
the std library documents. -/
def removeDirAll (w : World) : Except Nat Unit × World :=
  if w.workspaceExists then
    (Except.ok (), { w with workspaceExists := false })
  else
    (Except.error ENOENT, w)

/-- `Container::delete` (`src/container/mod.rs` lines 212-220):
`terminate()?`, then `cgroup_limits.delete(uid)?`, then
`remove_dir_all(<working_path>/<uid>)?`. -/
def Container.delete (c : Container) (env : TermEnv) (w : World) :
    Except Err Unit × Container × World × List Event :=
  let uid := c.config.uid
  let (r, c2, tr) := c.terminate env
  match r with
  | Except.error e => (Except.error e, c2, w, tr)
  | Except.ok _ =>
    let (r2, w2) := cgroupDelete w
    let tr2 := tr ++ [Event.cgroupDeleteCalled uid]
    match r2 with
    | Except.error e => (Except.error (Err.cgroupFailed e), c2, w2, tr2)
    | Except.ok _ =>
      let path := c.config.working_path ++ toString uid
      let (r3, w3) := removeDirAll w2
      let tr3 := tr2 ++ [Event.removeDirAllCalled path]
      match r3 with
      | Except.error e => (Except.error (Err.io e), c2, w3, tr3)
      | Except.ok _ => (Except.ok (), c2, w3, tr3)

/-- `Container::freeze` (`src/container/mod.rs` lines 222-224): forwards to
`cgroup_limits.freeze(uid)` (body in `src/resource`, out of scope; its
outcome is the oracle `res`).  Takes the container immutably; the container
state is returned unchanged to make that observable. -/
def Container.freeze (c : Container) (res : Except Nat Unit) :
    Except Err Unit × Container :=
  (match res with
   | Except.error e => Except.error (Err.cgroupFailed e)
   | Except.ok _ => Except.ok (), c)

/-- `Container::thaw` (`src/container/mod.rs` lines 226-228): forwards to
`cgroup_limits.thaw(uid)`; takes the container immutably. -/
def Container.thaw (c : Container) (res : Except Nat Unit) :
    Except Err Unit × Container :=
  (match res with
   | Except.error e => Except.error (Err.cgroupFailed e)
   | Except.ok _ => Except.ok (), c)

/-- Recognises clone(2) events in a trace. -/
def Event.isClone : Event → Bool
  | .cloneCalled _ _ _ => true
  | _ => false

/-- Recognises kill(2) events in a trace. -/
def Event.isKill : Event → Bool
  | .killCalled _ _ => true
  | _ => false

/-- Recognises report-pipe read events in a trace. -/
def Event.isReadReport : Event → Bool
  | .readReport _ => true
  | _ => false

/-- Concrete test configuration: the default config with random uid 42. -/
def cfg0 : Config := Config.default 42

/-- Concrete unstarted container over `cfg0`. -/
def c0 : Container := Container.fromConfig cfg0

/-- Concrete container that has a child pid and has ended. -/
def cEnded : Container :=
  { config := cfg0, container_pid := some 7, already_ended := true }

/-- Start oracle in which every syscall succeeds and the child closes the
report pipe without writing any byte (the parent observes EOF). -/
def envAllOkEof : StartEnv :=
  { pipeReady := Except.ok (3, 4)
    pipeReport := Except.ok (5, 6)
    cloneRes := Except.ok 1234
    closeReadyReadRes := Except.ok ()
    closeReportWriteRes := Except.ok ()
    idmapRes := Except.ok ()
    cgroupApplyRes := Except.ok ()
    killRes := Except.ok ()
    closeReadyWriteRes := Except.ok ()
    reportReadErr := none
    reportData := [] }

/-- Start oracle in which closing the parent's copy of the ready-pipe read
end fails with `EBADF` (9); everything else succeeds. -/
def envCloseFail : StartEnv :=
  { envAllOkEof with closeReadyReadRes := Except.error 9 }

/-- Start oracle in which `idmap::map_to_root` fails (errno 1); everything
else succeeds. -/
def envIdmapFail : StartEnv :=
  { envAllOkEof with idmapRes := Except.error 1 }

/-- Terminate oracle in which kill(2) and waitpid(2) succeed. -/
def tenv0 : TermEnv := { killRes := Except.ok (), waitpidRes := Except.ok () }

/-- Wait oracle in which waitpid(2) succeeds. -/
def wenv0 : WaitEnv := { waitpidRes := Except.ok () }

/-- Host state in which the cgroup and the workspace directory both exist. -/
def w0 : World := { cgroupExists := true, workspaceExists := true }

/-- The container state after one successful `delete()` on `c0`. -/
def c0afterDelete : Container := (c0.delete tenv0 w0).2.1

/-- The host state after one successful `delete()` on `c0`. -/
def w0afterDelete : World := (c0.delete tenv0 w0).2.2.1

/-! Helper lemmas shared by the claim theorems. -/

/-- `start` on a non-Unstarted container takes the guard branch: it returns
`AlreadyStarted`, leaves the state unchanged and issues no syscall. -/
theorem start_guard (c : Container) (env : StartEnv)
    (h : c.container_pid ≠ none ∨ c.already_ended = true) :
    c.start env = (Except.error Err.alreadyStarted, c, []) := by
  have hb : (c.has_started || c.has_ened) = true := by
    rcases h with h | h
    · have hs : c.has_started = true := by
        simp [Container.has_started, bne_iff_ne, h]
      simp [hs]
    · have hs : c.has_ened = true := h
      simp [hs]
  simp [Container.start, hb]

/-- `startAfterClone` never modifies the container state it is given. -/
theorem startAfterClone_container (c : Container) (env : StartEnv)
    (pid a b d e : Nat) (tr : List Event) :
    (Container.startAfterClone c env pid a b d e tr).2.1 = c := by
  obtain ⟨crr, crw, cl, h4, h5, idm, cga, kr, crw2, rerr, rep⟩ := env
  unfold Container.startAfterClone
  rcases h4 with e4 | u4 <;> rcases h5 with e5 | u5 <;>
    rcases idm with e6 | u6 <;> rcases cga with e7 | u7 <;>
    rcases kr with e8 | u8 <;> rcases crw2 with e9 | u9 <;>
    rcases rerr with _ | e10 <;>
    simp <;> split <;> rfl

/-- `startAfterClone` adds no clone event to the trace. -/
theorem startAfterClone_filter_clone (c : Container) (env : StartEnv)
    (pid a b d e : Nat) (tr : List Event) :
    ((Container.startAfterClone c env pid a b d e tr).2.2).filter Event.isClone
      = tr.filter Event.isClone := by
  obtain ⟨crr, crw, cl, h4, h5, idm, cga, kr, crw2, rerr, rep⟩ := env
  unfold Container.startAfterClone
  rcases h4 with e4 | u4 <;> rcases h5 with e5 | u5 <;>
    rcases idm with e6 | u6 <;> rcases cga with e7 | u7 <;>
    rcases kr with e8 | u8 <;> rcases crw2 with e9 | u9 <;>
    rcases rerr with _ | e10 <;>
    simp [Event.isClone] <;> split <;> simp [Event.isClone]

/-- `wait` never modifies `container_pid`. -/
theorem wait_container_pid (c : Container) (env : WaitEnv) :
    ((c.wait env).2.1).container_pid = c.container_pid := by
  obtain ⟨cfg, cpid, ended⟩ := c
  obtain ⟨wr⟩ := env
  cases ended <;> rcases cpid with _ | pid <;> rcases wr with e | u <;> rfl

/-- `wait` on an ended container is a no-op. -/
theorem wait_of_ended (c : Container) (env : WaitEnv)
    (h : c.already_ended = true) :
    c.wait env = (Except.ok (), c, []) := by
  have hs : c.has_ened = true := h
  simp [Container.wait, hs]

/-- `terminate` never modifies `container_pid`. -/
theorem terminate_container_pid (c : Container) (env : TermEnv) :
    ((c.terminate env).2.1).container_pid = c.container_pid := by
  obtain ⟨cfg, cpid, ended⟩ := c
  obtain ⟨kr, wr⟩ := env
  cases ended <;> rcases cpid with _ | pid <;> rcases kr with e | u <;>
    rcases wr with e2 | u2 <;> rfl

/-- `terminate` on an ended container is a no-op. -/
theorem terminate_of_ended (c : Container) (env : TermEnv)
    (h : c.already_ended = true) :
    c.terminate env = (Except.ok (), c, []) := by
  have hs : c.has_ened = true := h
  simp [Container.terminate, hs]

/-- `delete` leaves the container in the state `terminate` produced. -/
theorem delete_container_eq (c : Container) (env : TermEnv) (w : World) :
    ((c.delete env w).2.1) = (c.terminate env).2.1 := by
  obtain ⟨cfg, cpid, ended⟩ := c
  obtain ⟨kr, wr⟩ := env
  obtain ⟨cg, ws⟩ := w
  cases ended <;> rcases cpid with _ | pid <;> rcases kr with e | u <;>
    rcases wr with e2 | u2 <;> cases ws <;> rfl

/-! Claim theorems. -/

/-- C1.  When every parent-side syscall succeeds but the child closes the
report pipe without writing any byte (EOF: the sole report-pipe read
returns 0 bytes), `start()` nevertheless returns success: the zero-filled
buffer passes the `!= 0` status check.  This contradicts the claim that
`start` succeeds only after reading exactly one status byte and surfaces
an I/O error on EOF. -/
theorem start_reportEof_returns_success :
    ((c0.start envAllOkEof).1 = Except.ok ()) ∧
    (((c0.start envAllOkEof).2.2).filter Event.isReadReport
        = [Event.readReport 0]) :=
  ⟨rfl, rfl⟩

/-- C3.  `start()` on a container that is not Unstarted (a pid is recorded
or `already_ended` is set) fails with `AlreadyStarted`, leaves the state
unchanged, and issues no syscall (empty trace: no pipe, no clone). -/
theorem start_nonUnstarted_alreadyStarted_no_side_effects
    (c : Container) (env : StartEnv)
    (h : c.container_pid ≠ none ∨ c.already_ended = true) :
    c.start env = (Except.error Err.alreadyStarted, c, []) :=
  start_guard c env h

/-- Witness for C3 at a concrete ended container. -/
theorem start_nonUnstarted_alreadyStarted_no_side_effects_witness :
    cEnded.start envAllOkEof = (Except.error Err.alreadyStarted, cEnded, []) :=
  start_nonUnstarted_alreadyStarted_no_side_effects cEnded envAllOkEof
    (Or.inr rfl)

/-- C5.  `delete()` is not idempotent: a first `delete()` on an unstarted
container succeeds, but the second fails with `NotFound` because
`remove_dir_all` errors once the workspace directory is gone. -/
theorem delete_twice_second_fails :
    ((c0.delete tenv0 w0).1 = Except.ok ()) ∧
    ((c0afterDelete.delete tenv0 w0afterDelete).1
        = Except.error (Err.io ENOENT)) :=
  ⟨rfl, rfl⟩

/-- C6 counterexample.  `MountBindFs::loading` does not match the claimed
recursive-bind-then-remount-read-only behaviour: at a concrete source and
base path the issued mount calls differ from `bindLoadingPerSpec`, there
is exactly one call, and no call carries `MS_RDONLY`. -/
theorem bindfs_loading_no_readonly_remount :
    (decide (MountStep.loading (MountStep.bindFs "/images/alpine")
          "/tmp/ssandbox-rs.workspace/42/root"
        = bindLoadingPerSpec "/images/alpine"
          "/tmp/ssandbox-rs.workspace/42/root") = false) ∧
    ((MountStep.loading (MountStep.bindFs "/images/alpine")
          "/tmp/ssandbox-rs.workspace/42/root").length = 1) ∧
    ((MountStep.loading (MountStep.bindFs "/images/alpine")
          "/tmp/ssandbox-rs.workspace/42/root").all
        (fun m => m.flags &&& MS_RDONLY == 0) = true) :=
  ⟨by decide, rfl, rfl⟩

/-- C6 amended.  `MountBindFs::loading(base_path)` issues exactly one
mount(2) call: a recursive bind (`MS_REC | MS_BIND`) of the configured
source onto `base_path`; it does not remount read-only (no issued call
carries `MS_RDONLY`). -/
theorem bindfs_loading_single_recursive_bind (source base_path : String) :
    MountStep.loading (MountStep.bindFs source) base_path =
      [{ source := some source, target := base_path, fstype := none,
         flags := MS_REC ||| MS_BIND, data := none }] ∧
    (MountStep.loading (MountStep.bindFs source) base_path).all
      (fun m => m.flags &&& MS_RDONLY == 0) = true :=
  ⟨rfl, by
    simp only [MountStep.loading, List.all_cons, List.all_nil, Bool.and_true]
    decide⟩

/-- C8.  `Config::default()` yields exactly the documented field values:
the drawn random uid, the default working path, hostname "container",
target `/bin/sh`, empty fs list, capability policy followed by seccomp
policy, default cgroup policy, inner uid/gid 0, a 1-second time limit, and
no stdio redirection. -/
theorem config_default_fields (r : Nat) :
    (Config.default r).uid = r ∧
    (Config.default r).working_path = "/tmp/ssandbox-rs.workspace/" ∧
    (Config.default r).hostname = "container" ∧
    (Config.default r).target_executable = "/bin/sh" ∧
    (Config.default r).fs = [] ∧
    (Config.default r).security_policies
      = [SecurityPolicy.capabilityPolicy, SecurityPolicy.seccompPolicy] ∧
    (Config.default r).cgroup_limits = {} ∧
    (Config.default r).inner_uid = 0 ∧
    (Config.default r).inner_gid = 0 ∧
    (Config.default r).time_limit_nanos = 1000000000 ∧
    (Config.default r).stdin = none ∧
    (Config.default r).stdout = none ∧
    (Config.default r).stderr = none :=
  ⟨rfl, rfl, rfl, rfl, rfl, rfl, rfl, rfl, rfl, rfl, rfl, rfl, rfl⟩

/-- C2 counterexample.  A failure between the successful clone and the
ready-gate release does not always SIGKILL the child: when closing the
parent's copy of the ready-pipe read end fails, `start()` propagates the
close error with the child pid recorded but sends no kill (the trace
contains no kill(2) call). -/
theorem start_closeFail_no_sigkill :
    ((c0.start envCloseFail).1 = Except.error (Err.sys 9)) ∧
    ((c0.start envCloseFail).2.1.container_pid = some 1234) ∧
    (((c0.start envCloseFail).2.2).filter Event.isKill = []) :=
  ⟨rfl, rfl, rfl⟩

/-- C2 amended.  When the clone succeeds, the parent's pipe-end closes
succeed and then ID mapping or cgroup apply fails, `start()` issues a
kill(2) with SIGKILL on the cloned child before returning an error. -/
theorem start_idmap_or_cgroup_failure_kills_child
    (c : Container) (env : StartEnv) (pid a1 b1 a2 b2 : Nat)
    (hpid : c.container_pid = none) (hend : c.already_ended = false)
    (h1 : env.pipeReady = Except.ok (a1, b1))
    (h2 : env.pipeReport = Except.ok (a2, b2))
    (h3 : env.cloneRes = Except.ok pid)
    (h4 : env.closeReadyReadRes = Except.ok ())
    (h5 : env.closeReportWriteRes = Except.ok ())
    (hfail : (∃ e, env.idmapRes = Except.error e) ∨
             (∃ e, env.cgroupApplyRes = Except.error e)) :
    (∃ er, (c.start env).1 = Except.error er) ∧
      Event.killCalled pid SIGKILL ∈ (c.start env).2.2 := by
  have hguard : (c.has_started || c.has_ened) = false := by
    simp [Container.has_started, Container.has_ened, hpid, hend]
  simp only [Container.start, hguard, Bool.false_eq_true, if_false, h1, h2, h3]
  unfold Container.startAfterClone
  simp only [h4, h5]
  rcases hfail with ⟨e, he⟩ | ⟨e, he⟩
  · simp only [he]
    rcases hk : env.killRes with ke | u <;> simp
  · rcases hi : env.idmapRes with ei | ui
    · simp only [hi]
      rcases hk : env.killRes with ke | u <;> simp
    · simp only [hi, he]
      rcases hk : env.killRes with ke | u <;> simp

/-- Witness for the amended C2 at a concrete idmap failure. -/
theorem start_idmap_or_cgroup_failure_kills_child_witness :
    (∃ er, (c0.start envIdmapFail).1 = Except.error er) ∧
      Event.killCalled 1234 SIGKILL ∈ (c0.start envIdmapFail).2.2 :=
  start_idmap_or_cgroup_failure_kills_child c0 envIdmapFail 1234 3 4 5 6
    rfl rfl rfl rfl rfl rfl rfl (Or.inl ⟨1, rfl⟩)

/-- C4 counterexample.  A `start()` that fails after a successful clone
(here: ID mapping fails) returns an error yet leaves
`container_pid = Some(1234)`, contradicting "a start() call that returns
an error leaves container_pid = None". -/
theorem start_error_after_clone_sets_pid :
    ((c0.start envIdmapFail).1 = Except.error (Err.idMapFailed 1)) ∧
    ((c0.start envIdmapFail).2.1.container_pid = some 1234) :=
  ⟨rfl, rfl⟩

/-- C4 amended.  After `start()`, `container_pid = Some(p)` holds iff it
already held before the call, or the container was Unstarted, both pipes
were created successfully and the clone succeeded returning `p` — whether
or not `start()` then returned success.  In particular a `start()` failing
after a successful clone leaves `container_pid = Some(child pid)`. -/
theorem container_pid_iff_clone_succeeded
    (c : Container) (env : StartEnv) (p : Nat) :
    (c.start env).2.1.container_pid = some p ↔
      (c.container_pid = some p ∨
        (c.container_pid = none ∧ c.already_ended = false ∧
         env.pipeReady.isOk = true ∧ env.pipeReport.isOk = true ∧
         env.cloneRes = Except.ok p)) := by
  obtain ⟨cfg, cpid, ended⟩ := c
  rcases cpid with _ | q
  · cases ended
    · rcases h1 : env.pipeReady with e1 | ⟨a1, b1⟩
      · simp [Container.start, Container.has_started, Container.has_ened, h1,
          Except.isOk, Except.toBool]
      · rcases h2 : env.pipeReport with e2 | ⟨a2, b2⟩
        · simp [Container.start, Container.has_started, Container.has_ened,
            h1, h2, Except.isOk, Except.toBool]
        · rcases h3 : env.cloneRes with e3 | q3
          · simp [Container.start, Container.has_started, Container.has_ened,
              h1, h2, h3, Except.isOk, Except.toBool]
          · simp [Container.start, Container.has_started, Container.has_ened,
              h1, h2, h3, Except.isOk, Except.toBool, startAfterClone_container]
    · simp [Container.start, Container.has_started, Container.has_ened]
  · simp [Container.start, Container.has_started, Container.has_ened]

/-- C7.  Container state is monotone across start, wait, terminate,
delete, freeze and thaw: `already_ended` never reverts from true, and
`container_pid`, once `Some p`, stays `Some p`. -/
theorem container_state_monotone (c : Container) (senv : StartEnv)
    (wenv : WaitEnv) (tenv : TermEnv) (w : World) (res : Except Nat Unit) :
    (c.already_ended = true →
      ((c.start senv).2.1.already_ended = true ∧
       (c.wait wenv).2.1.already_ended = true ∧
       (c.terminate tenv).2.1.already_ended = true ∧
       (c.delete tenv w).2.1.already_ended = true ∧
       (c.freeze res).2.already_ended = true ∧
       (c.thaw res).2.already_ended = true)) ∧
    (∀ p, c.container_pid = some p →
      ((c.start senv).2.1.container_pid = some p ∧
       (c.wait wenv).2.1.container_pid = some p ∧
       (c.terminate tenv).2.1.container_pid = some p ∧
       (c.delete tenv w).2.1.container_pid = some p ∧
       (c.freeze res).2.container_pid = some p ∧
       (c.thaw res).2.container_pid = some p)) := by
  constructor
  · intro h
    refine ⟨?_, ?_, ?_, ?_, h, h⟩
    · rw [start_guard c senv (Or.inr h)]; exact h
    · rw [wait_of_ended c wenv h]; exact h
    · rw [terminate_of_ended c tenv h]; exact h
    · rw [delete_container_eq, terminate_of_ended c tenv h]; exact h
  · intro p hp
    have hne : c.container_pid ≠ none := by rw [hp]; simp
    refine ⟨?_, ?_, ?_, ?_, hp, hp⟩
    · rw [start_guard c senv (Or.inl hne)]; exact hp
    · rw [wait_container_pid]; exact hp
    · rw [terminate_container_pid]; exact hp
    · rw [delete_container_eq, terminate_container_pid]; exact hp

/-- Witness for C7 at a concrete ended container holding pid 7. -/
theorem container_state_monotone_witness :
    ((cEnded.start envAllOkEof).2.1.already_ended = true) ∧
    ((cEnded.wait wenv0).2.1.already_ended = true) ∧
    ((cEnded.terminate tenv0).2.1.already_ended = true) ∧
    ((cEnded.delete tenv0 w0).2.1.already_ended = true) ∧
    ((cEnded.start envAllOkEof).2.1.container_pid = some 7) ∧
    ((cEnded.wait wenv0).2.1.container_pid = some 7) := by
  have h := container_state_monotone cEnded envAllOkEof wenv0 tenv0 w0
    (Except.ok ())
  exact ⟨(h.1 rfl).1, (h.1 rfl).2.1, (h.1 rfl).2.2.1, (h.1 rfl).2.2.2.1,
    (h.2 7 rfl).1, (h.2 7 rfl).2.1⟩

/-- C9.  `start()` on an Unstarted container with both pipes created
issues exactly one clone(2), with a 2 MiB stack,
namespace flags `NEWUTS | NEWIPC | NEWPID | NEWNS | NEWUSER` and `SIGCHLD`
as the termination signal; the flag word is exactly 0x3C020000, which
contains neither `CLONE_NEWNET` nor `CLONE_NEWCGROUP`. -/
theorem start_clone_stack_and_flags (c : Container) (env : StartEnv)
    (a1 b1 a2 b2 : Nat)
    (hpid : c.container_pid = none) (hend : c.already_ended = false)
    (h1 : env.pipeReady = Except.ok (a1, b1))
    (h2 : env.pipeReport = Except.ok (a2, b2)) :
    (((c.start env).2.2).filter Event.isClone
        = [Event.cloneCalled (2 * 1024 * 1024)
            (CLONE_NEWUTS ||| CLONE_NEWIPC ||| CLONE_NEWPID ||| CLONE_NEWNS
              ||| CLONE_NEWUSER) SIGCHLD]) ∧
    (CLONE_NEWUTS ||| CLONE_NEWIPC ||| CLONE_NEWPID ||| CLONE_NEWNS
        ||| CLONE_NEWUSER) = 0x3C020000 ∧
    0x3C020000 &&& CLONE_NEWNET = 0 ∧
    0x3C020000 &&& CLONE_NEWCGROUP = 0 ∧
    STACK_SIZE = 2 * 1024 * 1024 := by
  refine ⟨?_, by decide, by decide, by decide, rfl⟩
  have hguard : (c.has_started || c.has_ened) = false := by
    simp [Container.has_started, Container.has_ened, hpid, hend]
  rcases h3 : env.cloneRes with e3 | pid
  · simp [Container.start, hguard, h1, h2, h3, Event.isClone, STACK_SIZE]
  · simp [Container.start, hguard, h1, h2, h3,
      startAfterClone_filter_clone, Event.isClone, STACK_SIZE]

/-- Witness for C9 at a concrete unstarted container and all-ok oracle. -/
theorem start_clone_stack_and_flags_witness :
    (((c0.start envAllOkEof).2.2).filter Event.isClone
        = [Event.cloneCalled (2 * 1024 * 1024)
            (CLONE_NEWUTS ||| CLONE_NEWIPC ||| CLONE_NEWPID ||| CLONE_NEWNS
              ||| CLONE_NEWUSER) SIGCHLD]) ∧
    (CLONE_NEWUTS ||| CLONE_NEWIPC ||| CLONE_NEWPID ||| CLONE_NEWNS
        ||| CLONE_NEWUSER) = 0x3C020000 ∧
    0x3C020000 &&& CLONE_NEWNET = 0 ∧
    0x3C020000 &&& CLONE_NEWCGROUP = 0 ∧
    STACK_SIZE = 2 * 1024 * 1024 :=
  start_clone_stack_and_flags c0 envAllOkEof 3 4 5 6 rfl rfl rfl rfl

/-- C10.  `wait()` on a never-started container returns `Ok` without
performing any `waitpid` (empty trace: no blocking), sets `already_ended`;
a subsequent `start()` then fails with `AlreadyStarted` even though no
child was ever spawned. -/
theorem wait_unstarted_then_start_alreadyStarted
    (cfg : Config) (wenv : WaitEnv) (senv : StartEnv) :
    (((Container.fromConfig cfg).wait wenv).1 = Except.ok ()) ∧
    (((Container.fromConfig cfg).wait wenv).2.2 = []) ∧
    (((Container.fromConfig cfg).wait wenv).2.1.already_ended = true) ∧
    (((Container.fromConfig cfg).wait wenv).2.1.container_pid = none) ∧
    ((((Container.fromConfig cfg).wait wenv).2.1.start senv).1
        = Except.error Err.alreadyStarted) :=
  ⟨rfl, rfl, rfl, rfl, rfl⟩

end SSandbox
